import Mathlib

/-!
Shallow embedding of the Monobuck real-time speech-capture core
(`mono_core/RealtimeSTT`): the recorder state machine
(`state_machine.py`, `audio_recorder.py:_set_state`), the two VAD gates
(`vad.py`), the wake-word sample stripping and pre-roll seeding of the
recording worker (`audio_recorder.py:_recording_worker`), the stop guard
(`audio_recorder.py:stop`), the utterance assembly with backdating
(`audio_recorder.py:wait_audio`) and the transcription padding
(`audio_recorder.py:_add_padding_to_audio`).

Machine integers are modelled as `Int`/`Nat` (16-bit PCM sample values as
`Int`, raw bytes as `Nat`); Python float arithmetic on durations and
normalized audio is modelled as exact rational arithmetic (`ℚ`); the
opaque neural models (Silero probability model, WebRTC per-frame
classifier, scipy resampler) are parameters of the definitions.
-/

namespace Monobuck

/-- Python `int(q)` on a float/rational: truncation toward zero. -/
def pyInt (q : ℚ) : ℤ :=
  if 0 ≤ q then ⌊q⌋ else ⌈q⌉

/-- Python `round(q)`: round half to even (banker's rounding). -/
def pyRound (q : ℚ) : ℤ :=
  let f : ℤ := ⌊q⌋
  let frac : ℚ := q - (f : ℚ)
  if frac < 1/2 then f
  else if 1/2 < frac then f + 1
  else if f % 2 = 0 then f else f + 1

/-! ## State machine (`state_machine.py`) -/

/-- `RecorderState` enum from `state_machine.py`. -/
inductive RecorderState where
  | inactive
  | listening
  | wakeword
  | recording
  | transcribing
deriving DecidableEq, Repr

/-- The `.value` of each enum member (`RecorderState(str, Enum)`). -/
def RecorderState.value : RecorderState → String
  | .inactive => "inactive"
  | .listening => "listening"
  | .wakeword => "wakeword"
  | .recording => "recording"
  | .transcribing => "transcribing"

/-- The Python enum constructor `RecorderState(new_state)`: looks a string
up by value, `none` models the `ValueError` for unrecognized strings. -/
def parseRecorderState (s : String) : Option RecorderState :=
  if s = "inactive" then some .inactive
  else if s = "listening" then some .listening
  else if s = "wakeword" then some .wakeword
  else if s = "recording" then some .recording
  else if s = "transcribing" then some .transcribing
  else none

/-- `StateCallbacks` dataclass: each field records whether the optional
callback is registered (`some f` in Python vs `None`). -/
structure StateCallbacks where
  on_vad_detect_start : Bool
  on_vad_detect_stop : Bool
  on_wakeword_detection_start : Bool
  on_wakeword_detection_end : Bool
  on_transcription_start : Bool
deriving DecidableEq, Repr

/-- Observable callback invocations performed by `transition_state`. -/
inductive StateEvent where
  | vadDetectStart
  | vadDetectStop
  | wakewordDetectionStart
  | wakewordDetectionEnd
  | transcriptionStart
deriving DecidableEq, Repr

/-- A Halo spinner instance: its text and its `_interval` (`none` while the
library-default interval, which the source never reads, is in force). -/
structure Halo where
  text : String
  interval : Option Nat
deriving DecidableEq, Repr

/-- The owner object as `transition_state` sees it: `.state` (a raw
string), `.halo` (optional spinner) and `.spinner` (enabled flag). -/
structure Owner where
  state : String
  halo : Option Halo
  spinner : Bool
deriving DecidableEq, Repr

/-- `AudioToTextRecorder._set_spinner`: create the spinner if absent,
otherwise only update its text; no-op when the spinner is disabled. -/
def setSpinner (o : Owner) (text : String) : Owner :=
  if o.spinner then
    match o.halo with
    | none => { o with halo := some ⟨text, none⟩ }
    | some h => { o with halo := some { h with text := text } }
  else o

/-- Set `halo._interval` on the current spinner object, if one exists. -/
def setHaloInterval (o : Owner) (n : Nat) : Owner :=
  match o.halo with
  | some h => { o with halo := some { h with interval := some n } }
  | none => o

/-- `transition_state` from `state_machine.py`: early-returns when the
owner's state string already equals `new_state.value`; otherwise writes
the new state, fires the FROM-state callbacks (leaving listening /
wakeword), then the TO-state callbacks and spinner updates. The local
`halo` variable is captured before `_set_spinner` runs, so an interval
update is skipped when the spinner was only just created. Returns the
updated owner and the list of callback invocations, in order. -/
def transition_state (o : Owner) (new_state : RecorderState)
    (callbacks : StateCallbacks) (spinner_enabled : Bool)
    (wake_words : String) : Owner × List StateEvent :=
  let old_state := o.state
  if old_state = new_state.value then (o, [])
  else
    let o1 : Owner := { o with state := new_state.value }
    let evFrom : List StateEvent :=
      if old_state = RecorderState.listening.value then
        if callbacks.on_vad_detect_stop then [.vadDetectStop] else []
      else if old_state = RecorderState.wakeword.value then
        if callbacks.on_wakeword_detection_end then [.wakewordDetectionEnd] else []
      else []
    let haloOld := o1.halo
    match new_state with
    | .listening =>
        let evTo : List StateEvent :=
          if callbacks.on_vad_detect_start then [.vadDetectStart] else []
        let o2 := setSpinner o1 "speak now"
        let o3 := if spinner_enabled ∧ haloOld.isSome then setHaloInterval o2 250 else o2
        (o3, evFrom ++ evTo)
    | .wakeword =>
        let evTo : List StateEvent :=
          if callbacks.on_wakeword_detection_start then [.wakewordDetectionStart] else []
        let o2 := setSpinner o1 ( "say " ++ wake_words)
        let o3 := if spinner_enabled ∧ haloOld.isSome then setHaloInterval o2 500 else o2
        (o3, evFrom ++ evTo)
    | .transcribing =>
        let evTo : List StateEvent :=
          if callbacks.on_transcription_start then [.transcriptionStart] else []
        let o2 := setSpinner o1 "transcribing"
        let o3 := if spinner_enabled ∧ haloOld.isSome then setHaloInterval o2 50 else o2
        (o3, evFrom ++ evTo)
    | .recording =>
        let o2 := setSpinner o1 "recording"
        let o3 := if spinner_enabled ∧ haloOld.isSome then setHaloInterval o2 100 else o2
        (o3, evFrom)
    | .inactive =>
        let o2 := if spinner_enabled ∧ haloOld.isSome then { o1 with halo := none } else o1
        (o2, evFrom)

/-- `AudioToTextRecorder._set_state`: normalizes the incoming string to a
`RecorderState` member; on `ValueError` logs a warning and falls back to
the legacy behaviour of storing the raw string, firing no callbacks.
Result: updated owner, callback events, and whether the unknown-state
warning was logged. -/
def setState (o : Owner) (callbacks : StateCallbacks)
    (wake_words : String) (new_state : String) :
    Owner × List StateEvent × Bool :=
  match parseRecorderState new_state with
  | none => ({ o with state := new_state }, [], true)
  | some st =>
      let (o2, evs) := transition_state o st callbacks o.spinner wake_words
      (o2, evs, false)

/-! ## Voice-activity detection (`vad.py`) -/

/-- `INT16_MAX_ABS_VALUE` from `vad.py`. -/
def INT16_MAX_ABS_VALUE : ℚ := 32768

/-- Normalization `int16 → float32` used throughout the source:
`astype(np.float32) / INT16_MAX_ABS_VALUE` (exact for int16 values). -/
def int16Norm (v : ℤ) : ℚ := (v : ℚ) / INT16_MAX_ABS_VALUE

/-- `VadConfig` dataclass from `vad.py`. -/
structure VadConfig where
  sample_rate : Nat
  silero_sensitivity : ℚ

/-- `silero_is_speech` from `vad.py`: reinterpret the byte chunk as int16
samples, resample to 16 kHz if needed (`resample` stands for the opaque
`scipy.signal.resample_poly` round trip), normalize to float32 in
`[-1, 1]` by dividing by 32768, feed through the Silero model (opaque
parameter `model` returning the speech probability) and compare against
`1 - silero_sensitivity`. -/
def silero_is_speech (model : List ℚ → ℚ) (resample : List ℤ → Nat → List ℤ)
    (chunk : List ℤ) (cfg : VadConfig) : Bool :=
  let pcm_data : List ℤ :=
    if cfg.sample_rate ≠ 16000 then resample chunk cfg.sample_rate else chunk
  let audio_chunk : List ℚ := pcm_data.map int16Norm
  decide (model audio_chunk > 1 - cfg.silero_sensitivity)

/-- The 10 ms frame length of `webrtc_is_speech`: `int(16000 * 0.01)`. -/
def webrtcFrameLength : Nat := 160

/-- The consecutive complete 10 ms frames that `webrtc_is_speech` slices
out of a (16 kHz) byte chunk: frame `i` is `chunk[i*320 : (i+1)*320]`. -/
def webrtcFrames (chunk : List Nat) : List (List Nat) :=
  (List.range (chunk.length / (2 * webrtcFrameLength))).map
    (fun i => (chunk.drop (i * webrtcFrameLength * 2)).take (webrtcFrameLength * 2))

/-- The `for i in range(num_frames)` loop of `webrtc_is_speech`, carrying
the `speech_frames` counter: in "any" mode it returns `True` at the first
frame the model flags; in "all" mode it counts flagged frames and finally
compares the count with `num_frames` (the loop falls through to
`return False` in "any" mode). -/
def webrtcScan (flag : List Nat → Bool) (all_frames_must_be_true : Bool)
    (num_frames : Nat) : List (List Nat) → Nat → Bool
  | [], speech_frames =>
      if all_frames_must_be_true then speech_frames = num_frames else false
  | frame :: rest, speech_frames =>
      if flag frame then
        if all_frames_must_be_true then
          webrtcScan flag all_frames_must_be_true num_frames rest (speech_frames + 1)
        else true
      else webrtcScan flag all_frames_must_be_true num_frames rest speech_frames

/-- `webrtc_is_speech` from `vad.py`: resample to 16 kHz if needed
(opaque `resample` on the raw bytes), then scan complete 10 ms frames
with the WebRTC model (opaque per-frame predicate `flag`); zero complete
frames short-circuits to `False`. -/
def webrtc_is_speech (flag : List Nat → Bool) (resample : List Nat → Nat → List Nat)
    (chunk : List Nat) (sample_rate : Nat)
    (all_frames_must_be_true : Bool) : Bool :=
  let chunk := if sample_rate ≠ 16000 then resample chunk sample_rate else chunk
  let num_frames := chunk.length / (2 * webrtcFrameLength)
  if num_frames = 0 then false
  else webrtcScan flag all_frames_must_be_true num_frames (webrtcFrames chunk) 0

/-! ## `AudioToTextRecorder.stop` (`audio_recorder.py:1151-1191`) -/

/-- The recorder fields read or written by `stop()`; callback fields hold
whether the callback is registered. Times are wall-clock seconds. -/
structure Recorder where
  frames : List (List ℤ)
  last_frames : List (List ℤ)
  backdate_stop_seconds : ℚ
  backdate_resume_seconds : ℚ
  is_recording : Bool
  recording_start_time : ℚ
  recording_stop_time : ℚ
  is_silero_speech_active : Bool
  is_webrtc_speech_active : Bool
  silero_check_time : ℚ
  start_recording_event : Bool
  stop_recording_event : Bool
  last_recording_start_time : ℚ
  last_recording_stop_time : ℚ
  min_length_of_recording : ℚ
  on_recording_stop : Bool
deriving DecidableEq, Repr

/-- Observable side effects of `stop()`. -/
inductive StopEvent where
  | recordingStopCallback
deriving DecidableEq, Repr

/-- `AudioToTextRecorder.stop`: rejects (returns the recorder unchanged,
firing nothing) while less than `min_length_of_recording` seconds have
passed since `recording_start_time`; otherwise snapshots the frames,
stores the backdate parameters, clears the recording flags and VAD
latches, flips the start/stop events and fires `on_recording_stop` when
registered. `now` stands for `time.time()`. -/
def Recorder.stop (r : Recorder) (now : ℚ)
    (backdate_stop_seconds backdate_resume_seconds : ℚ) :
    Recorder × List StopEvent :=
  if now - r.recording_start_time < r.min_length_of_recording then
    (r, [])
  else
    ({ r with
        last_frames := r.frames
        backdate_stop_seconds := backdate_stop_seconds
        backdate_resume_seconds := backdate_resume_seconds
        is_recording := false
        recording_stop_time := now
        is_silero_speech_active := false
        is_webrtc_speech_active := false
        silero_check_time := 0
        start_recording_event := false
        stop_recording_event := true
        last_recording_start_time := r.recording_start_time
        last_recording_stop_time := now },
     if r.on_recording_stop then [.recordingStopCallback] else [])

/-! ## Utterance assembly in `wait_audio` (`audio_recorder.py:927-983`) -/

/-- Wrap an integer into int16 range, as numpy's cast to `np.int16` does. -/
def wrapInt16 (z : ℤ) : ℤ := ((z + 32768) % 65536) - 32768

/-- numpy `astype(np.int16)` on a float value: truncation toward zero,
then wrap into int16 range. -/
def float32ToInt16 (x : ℚ) : ℤ := wrapInt16 (pyInt x)

/-- `FRAME_SIZE = 2048` bytes from `wait_audio`, i.e. 1024 int16 samples. -/
def FRAME_SIZE_BYTES : Nat := 2048

/-- The `for i in range(0, len(frame_bytes), FRAME_SIZE)` re-chunking loop
of `wait_audio`: split a list into consecutive chunks of `n` elements
(the final chunk may be shorter; empty chunks are never produced, matching
the `if frame:` guard). -/
def chunksOf (n : Nat) (l : List α) : List (List α) :=
  match l with
  | [] => []
  | x :: xs =>
    if n = 0 then []
    else ((x :: xs).take n) :: chunksOf n ((x :: xs).drop n)
termination_by l.length
decreasing_by
  simp only [List.length_drop, List.length_cons]
  omega

/-- The utterance-assembly tail of `wait_audio` (lines 927-983), starting
from the collected `frames` (each frame a list of int16 samples; the
source joins byte strings and reads them back with
`np.frombuffer(dtype=np.int16)`): computes how many trailing samples to
keep for `backdate_resume_seconds` (re-chunked into `FRAME_SIZE`-byte
frames via an exact float32 round trip), and drops
`int(sample_rate * backdate_stop_seconds)` trailing samples for the final
audio (clearing it entirely when that count reaches the total length).
Returns `(self.audio, the frames the recorder is re-seeded with)`. -/
def waitAudioAssemble (sample_rate : Nat) (frames : List (List ℤ))
    (backdate_stop_seconds backdate_resume_seconds : ℚ) :
    List ℚ × List (List ℤ) :=
  let samples_to_keep : ℤ := pyInt ((sample_rate : ℚ) * backdate_resume_seconds)
  let full_audio : List ℚ := (frames.flatten).map int16Norm
  let frames_to_read : List (List ℤ) :=
    if 0 < samples_to_keep then
      let keep : Nat := min samples_to_keep.toNat full_audio.length
      let frames_to_read_audio := full_audio.drop (full_audio.length - keep)
      let frames_to_read_int16 :=
        frames_to_read_audio.map (fun x => float32ToInt16 (x * INT16_MAX_ABS_VALUE))
      chunksOf (FRAME_SIZE_BYTES / 2) frames_to_read_int16
    else []
  let samples_to_remove : ℤ := pyInt ((sample_rate : ℚ) * backdate_stop_seconds)
  let audio : List ℚ :=
    if 0 < samples_to_remove then
      if samples_to_remove < (full_audio.length : ℤ) then
        full_audio.take (full_audio.length - samples_to_remove.toNat)
      else []
    else full_audio
  (audio, frames_to_read)

/-! ## Wake-word sample stripping (`audio_recorder.py:1424-1439`) -/

/-- The `while wakeword_samples_to_remove > 0 and self.frames:` loop of
`_recording_worker`, verbatim: frames are byte strings
(`frame_samples = len(frame) // 2`); a frame wholly covered by the
outstanding count is popped and the count decremented; otherwise the head
frame is sliced (`frame[wakeword_samples_to_remove * 2:]`) — after which
the source resets the unrelated local `samples_to_remove` instead of
`wakeword_samples_to_remove`, so the loop keeps running. Returns the
remaining frames and the `samples_removed` counter. -/
def stripWakewordLoop (wakeword_samples_to_remove : Nat)
    (frames : List (List Nat)) (samples_removed : Nat) :
    List (List Nat) × Nat :=
  match frames with
  | [] => ([], samples_removed)
  | frame :: rest =>
    if wakeword_samples_to_remove = 0 then (frame :: rest, samples_removed)
    else
      let frame_samples := frame.length / 2
      if frame_samples ≤ wakeword_samples_to_remove then
        stripWakewordLoop (wakeword_samples_to_remove - frame_samples) rest
          (samples_removed + frame_samples)
      else
        stripWakewordLoop wakeword_samples_to_remove
          (frame.drop (wakeword_samples_to_remove * 2) :: rest)
          (samples_removed + wakeword_samples_to_remove)
termination_by (frames.map List.length).sum + frames.length
decreasing_by
  · simp only [List.map_cons, List.sum_cons, List.length_cons]
    omega
  · simp only [List.map_cons, List.sum_cons, List.length_cons, List.length_drop]
    omega

/-- What the spec says the stripping step does — modelled from the spec:
"remove that many leading samples from the head of the accumulated
utterance (chunk-granular removal with partial-chunk slicing for the
remainder)". Whole frames are dropped while the count covers them and the
remainder is sliced off the next frame, after which stripping stops. -/
def specStripWakeword (n : Nat) (frames : List (List Nat)) : List (List Nat) :=
  match frames with
  | [] => []
  | frame :: rest =>
    if frame.length / 2 ≤ n then specStripWakeword (n - frame.length / 2) rest
    else if n = 0 then frame :: rest
    else frame.drop (n * 2) :: rest

/-! ## Pre-roll seeding in `_recording_worker` (`audio_recorder.py:1406-1415, 1510-1516`) -/

/-- One audio chunk as int16 samples. -/
abbrev Chunk := List ℤ

/-- `collections.deque(maxlen=m).append`: append on the right, discarding
from the left whatever exceeds `maxlen`. -/
def dequeAppend (maxlen : Nat) (buf : List Chunk) (d : Chunk) : List Chunk :=
  let b := buf ++ [d]
  b.drop (b.length - maxlen)

/-- `maxlen` of `self.audio_buffer` (`audio_recorder.py:463-466`):
`int((sample_rate // buffer_size) * pre_recording_buffer_duration)` —
note the integer division before the multiplication. -/
def audioBufferMaxlen (sample_rate buffer_size : Nat)
    (pre_recording_buffer_duration : ℚ) : Nat :=
  (pyInt (((sample_rate / buffer_size : Nat) : ℚ) * pre_recording_buffer_duration)).toNat

/-- The `_recording_worker` state relevant to pre-roll seeding. -/
structure WorkerState where
  is_recording : Bool
  start_recording_on_voice_activity : Bool
  audio_buffer : List Chunk
  frames : List Chunk
deriving Repr

/-- One `_recording_worker` iteration restricted to the voice-activity /
pre-roll path, for a chunk `data` popped from the queue together with the
`_is_voice_active()` outcome for it: while not recording, a positive
composite VAD result with the start armed runs `start()` (which resets
`self.frames`, the min-gap guard having passed), extends the fresh frames
with the whole `audio_buffer`, clears the buffer, and — reaching line
1513 with `is_recording` now true — appends the triggering chunk to the
frames; otherwise the chunk is appended to the pre-roll deque (line
1516). While recording (no stop attempt, silence timer at zero) the chunk
is appended to the frames only. Wake-word processing is disabled in this
scenario. -/
def recordingWorkerStep (maxlen : Nat) (s : WorkerState)
    (input : Chunk × Bool) : WorkerState :=
  let data := input.1
  let voice_active := input.2
  if s.is_recording then
    { s with frames := s.frames ++ [data] }
  else
    if s.start_recording_on_voice_activity ∧ voice_active then
      { is_recording := true
        start_recording_on_voice_activity := false
        audio_buffer := []
        frames := s.audio_buffer ++ [data] }
    else
      { s with audio_buffer := dequeAppend maxlen s.audio_buffer data }

/-- Run `_recording_worker` iterations over a sequence of
(chunk, voice-active) inputs. -/
def recordingWorkerRun (maxlen : Nat) (s : WorkerState)
    (inputs : List (Chunk × Bool)) : WorkerState :=
  inputs.foldl (recordingWorkerStep maxlen) s

/-- The worker state in which `listen()`/`wait_audio()` has armed
start-on-voice-activity and nothing has been recorded yet. -/
def listeningState : WorkerState :=
  { is_recording := false
    start_recording_on_voice_activity := true
    audio_buffer := []
    frames := [] }

/-- The last `m` elements of a list (what a `maxlen=m` deque retains). -/
def takeLast (m : Nat) (l : List α) : List α := l.drop (l.length - m)

/-! ## Transcription padding (`audio_recorder.py:1718-1728, 1008-1016, 1460-1469`) -/

/-- `AudioToTextRecorder._add_padding_to_audio`: prepend and append
`int(sample_rate * padding_duration)` zero float32 samples. -/
def addPaddingToAudio (sample_rate : Nat) (padding_duration : ℚ)
    (audio : List ℚ) : List ℚ :=
  let padding : List ℚ :=
    List.replicate (pyInt ((sample_rate : ℚ) * padding_duration)).toNat 0
  padding ++ audio ++ padding

/-- The audio `transcribe()` (lines 1008-1016) hands to
`self.transcriber.send`: only when no early transcription is in flight
(`transcribe_count == 0`) is a request sent, and it is the padded copy
(`padding_duration` left at its default `1.0`). -/
def transcribeSendAudio (sample_rate : Nat) (transcribe_count : Nat)
    (audio : List ℚ) : Option (List ℚ) :=
  if transcribe_count = 0 then some (addPaddingToAudio sample_rate 1 audio) else none

/-- The audio the early-transcription-on-silence path (lines 1460-1469)
hands to `self.transcriber.send`: the joined frames, normalized to
float32, padded with the default `1.0` s of silence. -/
def earlyTranscriptionAudio (sample_rate : Nat) (frames : List (List ℤ)) : List ℚ :=
  addPaddingToAudio sample_rate 1 ((frames.flatten).map int16Norm)

/-! ## Concrete instances for witnesses -/

/-- A fully-populated callback record, used in concrete instances: every
optional callback is registered, so any suppressed callback is suppressed
by the transition logic itself, not by absence. -/
def allCallbacks : StateCallbacks :=
  { on_vad_detect_start := true
    on_vad_detect_stop := true
    on_wakeword_detection_start := true
    on_wakeword_detection_end := true
    on_transcription_start := true }

/-- A concrete recorder mid-recording, used to witness the stop guard. -/
def sampleRecorder : Recorder :=
  { frames := [[1, 2], [3]]
    last_frames := []
    backdate_stop_seconds := 0
    backdate_resume_seconds := 0
    is_recording := true
    recording_start_time := 10
    recording_stop_time := 0
    is_silero_speech_active := true
    is_webrtc_speech_active := true
    silero_check_time := 7
    start_recording_event := true
    stop_recording_event := false
    last_recording_start_time := 0
    last_recording_stop_time := 0
    min_length_of_recording := 1/2
    on_recording_stop := true }

/-! ## Theorems -/

/-- Claim C8: requesting a transition to the state the owner already holds
is a no-op — `transition_state` returns the owner unchanged and fires no
entry or exit callback. -/
theorem transition_state_same_state_noop (o : Owner) (v : RecorderState)
    (cb : StateCallbacks) (sp : Bool) (ww : String)
    (h : o.state = v.value) :
    transition_state o v cb sp ww = (o, []) := by
  unfold transition_state
  rw [if_pos h]

/-- Witness for C8: a recorder already in the recording state, with every
callback registered and the spinner active, is untouched by a request to
enter recording again. -/
theorem transition_state_same_state_noop_witness :
    transition_state ⟨ "recording", some ⟨ "recording", some 100⟩, true⟩
      RecorderState.recording allCallbacks true "jarvis" =
      (⟨ "recording", some ⟨ "recording", some 100⟩, true⟩, []) :=
  transition_state_same_state_noop _ _ _ _ _ rfl

/-- Counterexample to claim C1 as stated: requesting the unrecognized
state "bogus" from a recorder whose state is "inactive" leaves the state
field equal to "bogus", not to the previous state — the previous state is
not preserved. -/
theorem setState_unknown_counterexample :
    parseRecorderState "bogus" = none ∧
    (setState ⟨ "inactive", none, false⟩ allCallbacks "" "bogus").1.state = "bogus" ∧
    "bogus" ≠ "inactive" := by
  refine ⟨rfl, rfl, ?_⟩
  decide

/-- Claim C1 (amended): a state-change request whose argument is not one
of the five recognized recorder states is handled without crashing and
fires no transition callback; a diagnostic warning is logged, and the
state field is set to the requested raw string (the legacy fallback) —
it is not preserved. -/
theorem setState_unknown_state (o : Owner) (cb : StateCallbacks)
    (ww req : String) (h : parseRecorderState req = none) :
    setState o cb ww req = ({ o with state := req }, [], true) := by
  unfold setState
  rw [h]

/-- Witness for C1 (amended): the unknown request "bogus" against a
concrete inactive recorder. -/
theorem setState_unknown_state_witness :
    setState ⟨ "inactive", none, false⟩ allCallbacks "" "bogus" =
      (⟨ "bogus", none, false⟩, [], true) :=
  setState_unknown_state _ _ _ _ rfl

/-- Claim C5: `stop()` called strictly less than `min_length_of_recording`
seconds after the matching `start()` has no effect at all — the recorder
record (frames, backdate parameters, events, timestamps, `is_recording`)
is returned unchanged and no stop callback fires. -/
theorem stop_too_soon_noop (r : Recorder) (now s rr : ℚ)
    (h : now - r.recording_start_time < r.min_length_of_recording) :
    r.stop now s rr = (r, []) := by
  unfold Recorder.stop
  rw [if_pos h]

/-- Witness for C5: stopping 0.3 s into a recording whose minimum
length is 0.5 s changes nothing and fires nothing. -/
theorem stop_too_soon_noop_witness :
    (10.3 : ℚ) - sampleRecorder.recording_start_time <
        sampleRecorder.min_length_of_recording ∧
    sampleRecorder.stop 10.3 2 3 = (sampleRecorder, []) :=
  ⟨by norm_num [sampleRecorder], stop_too_soon_noop _ _ _ _ (by norm_num [sampleRecorder])⟩

/-- Claim C10: a chunk shorter than one complete 10 ms frame (fewer than
320 bytes at 16 kHz after resampling) makes the fast first-stage VAD
return false in both modes — the all-frames condition over zero frames is
not treated as vacuously true. -/
theorem webrtc_is_speech_short_chunk_false (flag : List Nat → Bool)
    (resample : List Nat → Nat → List Nat) (chunk : List Nat)
    (sample_rate : Nat) (mode : Bool)
    (h : (if sample_rate ≠ 16000 then resample chunk sample_rate else chunk).length < 320) :
    webrtc_is_speech flag resample chunk sample_rate mode = false := by
  have h' : (if sample_rate = 16000 then chunk
      else resample chunk sample_rate).length < 320 := by
    by_cases hc : sample_rate = 16000 <;> simp_all
  have hz : (if sample_rate = 16000 then chunk
      else resample chunk sample_rate).length / (2 * webrtcFrameLength) = 0 :=
    Nat.div_eq_of_lt (by simpa [webrtcFrameLength] using h')
  simp [webrtc_is_speech, hz]

/-- Witness for C10: a 10-byte chunk at 16 kHz, with a frame model that
flags everything as speech, still yields false in "all" mode. -/
theorem webrtc_is_speech_short_chunk_false_witness :
    (List.replicate 10 (0 : Nat)).length < 320 ∧
    webrtc_is_speech (fun _ => true) (fun c _ => c)
      (List.replicate 10 0) 16000 true = false :=
  ⟨by decide, webrtc_is_speech_short_chunk_false _ _ _ _ _ (by decide)⟩

/-- Claim C7: at the configured 16 kHz rate the confirming (second-stage)
VAD normalizes the int16 chunk to float32 values in `[-1, 1]`, obtains a
single probability from the confirm model, and returns true if and only
if that probability exceeds `1 - silero_sensitivity`. -/
theorem silero_is_speech_spec (model : List ℚ → ℚ)
    (resample : List ℤ → Nat → List ℤ) (chunk : List ℤ) (cfg : VadConfig)
    (hsr : cfg.sample_rate = 16000)
    (hrange : ∀ v ∈ chunk, -32768 ≤ v ∧ v ≤ 32767) :
    (silero_is_speech model resample chunk cfg = true ↔
      model (chunk.map int16Norm) > 1 - cfg.silero_sensitivity) ∧
    ∀ x ∈ chunk.map int16Norm, -1 ≤ x ∧ x ≤ 1 := by
  constructor
  · simp only [silero_is_speech, hsr, ne_eq, not_true_eq_false, if_false,
      decide_eq_true_eq]
  · intro x hx
    rcases List.mem_map.mp hx with ⟨v, hv, rfl⟩
    rcases hrange v hv with ⟨h1, h2⟩
    have h1' : (-32768 : ℚ) ≤ (v : ℚ) := by exact_mod_cast h1
    have h2' : ((v : ℚ)) ≤ 32767 := by exact_mod_cast h2
    unfold int16Norm INT16_MAX_ABS_VALUE
    constructor
    · rw [le_div_iff₀ (by norm_num : (0:ℚ) < 32768)]
      linarith
    · rw [div_le_iff₀ (by norm_num : (0:ℚ) < 32768)]
      linarith

/-- Witness for C7: a three-sample chunk and a model reporting
probability 3/4 against sensitivity 1/2 (threshold 1/2): speech. -/
theorem silero_is_speech_spec_witness :
    (silero_is_speech (fun _ => 3/4) (fun c _ => c) [0, 100, -32768]
        ⟨16000, 1/2⟩ = true ↔ (3/4 : ℚ) > 1 - 1/2) ∧
    ∀ x ∈ ([0, 100, -32768] : List ℤ).map int16Norm, -1 ≤ x ∧ x ≤ 1 := by
  have h := silero_is_speech_spec (fun _ => 3/4) (fun c _ => c)
    [0, 100, -32768] ⟨16000, 1/2⟩ rfl (by decide)
  exact h

/-- The scan loop in "any" mode returns exactly `List.any`: true iff some
frame is flagged (the counter and frame budget are irrelevant). -/
theorem webrtcScan_any (flag : List Nat → Bool) :
    ∀ (frames : List (List Nat)) (k n : Nat),
    webrtcScan flag false n frames k = frames.any flag
  | [], k, n => by simp [webrtcScan]
  | f :: rest, k, n => by
    by_cases hf : flag f <;>
      simp [webrtcScan, hf, webrtcScan_any flag rest]

/-- The scan loop in "all" mode computes whether the initial counter plus
the number of flagged frames reaches the frame budget. -/
theorem webrtcScan_all (flag : List Nat → Bool) :
    ∀ (frames : List (List Nat)) (k n : Nat),
    webrtcScan flag true n frames k = decide (k + frames.countP flag = n)
  | [], k, n => by simp [webrtcScan]
  | f :: rest, k, n => by
    by_cases hf : flag f
    · rw [webrtcScan, if_pos hf, if_pos rfl, webrtcScan_all flag rest]
      rw [decide_eq_decide]
      simp [List.countP_cons, hf]
      omega
    · rw [webrtcScan, if_neg hf, webrtcScan_all flag rest]
      rw [decide_eq_decide]
      simp [List.countP_cons, hf]

/-- The frame slicing produces one frame per complete 320-byte window. -/
theorem webrtcFrames_length (chunk : List Nat) :
    (webrtcFrames chunk).length = chunk.length / (2 * webrtcFrameLength) := by
  simp [webrtcFrames, webrtcFrameLength]

/-- Claim C6: at 16 kHz the fast first-stage VAD partitions the chunk
into consecutive complete 10 ms (320-byte) frames; in "any" mode it
returns true iff at least one frame is flagged by the frame model, and in
"all" mode (the deactivation check), when at least one complete frame
exists, it returns true iff every frame is flagged. -/
theorem webrtc_is_speech_modes (flag : List Nat → Bool)
    (resample : List Nat → Nat → List Nat) (chunk : List Nat) :
    webrtc_is_speech flag resample chunk 16000 false = (webrtcFrames chunk).any flag ∧
    (1 ≤ chunk.length / (2 * webrtcFrameLength) →
      webrtc_is_speech flag resample chunk 16000 true = (webrtcFrames chunk).all flag) := by
  constructor
  · by_cases hz : chunk.length / (2 * webrtcFrameLength) = 0
    · have hframes : webrtcFrames chunk = [] := by
        unfold webrtcFrames
        rw [show chunk.length / (2 * webrtcFrameLength) = 0 from hz]
        rfl
      simp [webrtc_is_speech, hz, hframes]
    · simp [webrtc_is_speech, hz, webrtcScan_any]
  · intro h1
    have hz : ¬ chunk.length / (2 * webrtcFrameLength) = 0 := by omega
    have hlen := webrtcFrames_length chunk
    by_cases hall : ∀ f ∈ webrtcFrames chunk, flag f
    · have hcnt : (webrtcFrames chunk).countP flag = (webrtcFrames chunk).length :=
        List.countP_eq_length.mpr hall
      have hTrue : (webrtcFrames chunk).all flag = true := List.all_eq_true.mpr hall
      simp [webrtc_is_speech, hz, webrtcScan_all, hcnt, hlen, hTrue]
    · have hcnt : ¬ (webrtcFrames chunk).countP flag = (webrtcFrames chunk).length := by
        intro hc
        exact hall (List.countP_eq_length.mp hc)
      have hFalse : (webrtcFrames chunk).all flag = false := by
        rw [Bool.eq_false_iff]
        intro hc
        exact hall (List.all_eq_true.mp hc)
      rw [hlen] at hcnt
      simp [webrtc_is_speech, hz, webrtcScan_all, hFalse, hcnt]

/-- Witness for C6: a 640-byte chunk (two complete frames) whose second
frame starts with a nonzero byte, under the frame model flagging frames
with head byte zero: "any" mode sees the first frame, "all" mode fails on
the second. -/
theorem webrtc_is_speech_modes_witness :
    (webrtc_is_speech (fun f => f.headI = 0) (fun c _ => c)
        (List.replicate 320 0 ++ List.replicate 320 1) 16000 false =
      (webrtcFrames (List.replicate 320 0 ++ List.replicate 320 1)).any
        (fun f => f.headI = 0)) ∧
    1 ≤ (List.replicate 320 (0 : Nat) ++ List.replicate 320 1).length /
        (2 * webrtcFrameLength) ∧
    (webrtc_is_speech (fun f => f.headI = 0) (fun c _ => c)
        (List.replicate 320 0 ++ List.replicate 320 1) 16000 true =
      (webrtcFrames (List.replicate 320 0 ++ List.replicate 320 1)).all
        (fun f => f.headI = 0)) := by
  have h := webrtc_is_speech_modes (fun f => f.headI = 0) (fun c _ => c)
    (List.replicate 320 0 ++ List.replicate 320 1)
  have h1 : 1 ≤ (List.replicate 320 (0 : Nat) ++ List.replicate 320 1).length /
      (2 * webrtcFrameLength) := by
    rw [List.length_append, List.length_replicate, List.length_replicate]
    norm_num [webrtcFrameLength]
  exact ⟨h.1, h1, h.2 h1⟩

/-- Claim C2 exhibits a code bug; this theorem evaluates the embedded
stripping loop at the failing input. With 1 wake-word sample outstanding
and one accumulated 4-sample (8-byte) frame, the loop removes all 4
samples (the partial-slice branch resets the wrong variable, so slicing
repeats until the frame is consumed), while the specified behaviour —
`specStripWakeword` — removes exactly the 1 leading sample. -/
theorem stripWakewordLoop_over_removes :
    stripWakewordLoop 1 [[10, 11, 12, 13, 14, 15, 16, 17]] 0 = ([], 4) ∧
    specStripWakeword 1 [[10, 11, 12, 13, 14, 15, 16, 17]] =
      [[12, 13, 14, 15, 16, 17]] := by
  constructor
  · rw [stripWakewordLoop]
    norm_num
    rw [stripWakewordLoop]
    norm_num
    rw [stripWakewordLoop]
    norm_num
    rw [stripWakewordLoop]
    norm_num
    rw [stripWakewordLoop]
  · rw [specStripWakeword]
    norm_num

/-- Python's `int()` on a nonnegative natural number is that number. -/
theorem pyInt_natCast (n : Nat) : pyInt (n : ℚ) = n := by
  unfold pyInt
  rw [if_pos (by positivity)]
  exact_mod_cast Int.floor_natCast (α := ℚ) n

/-- With the default `padding_duration = 1.0`, `_add_padding_to_audio`
prepends and appends exactly `sample_rate` zero samples. -/
theorem addPaddingToAudio_default (sr : Nat) (audio : List ℚ) :
    addPaddingToAudio sr 1 audio =
      List.replicate sr 0 ++ audio ++ List.replicate sr 0 := by
  unfold addPaddingToAudio
  rw [mul_one, pyInt_natCast]
  simp

/-- Claim C9: every utterance actually sent to the transcription engine —
by the normal `transcribe()` path (which sends only when no early
transcription is in flight) and by the early-transcription-on-silence
path — is the utterance with exactly `int(sample_rate * 1.0) = sample_rate`
zero samples of silence prepended and the same number appended. -/
theorem transcription_padding (sr tc : Nat) (audio : List ℚ)
    (frames : List (List ℤ)) :
    (∀ sent, transcribeSendAudio sr tc audio = some sent →
        sent = List.replicate sr 0 ++ audio ++ List.replicate sr 0) ∧
    earlyTranscriptionAudio sr frames =
      List.replicate sr 0 ++ (frames.flatten.map int16Norm) ++
        List.replicate sr 0 := by
  constructor
  · intro sent hsent
    unfold transcribeSendAudio at hsent
    by_cases htc : tc = 0
    · rw [if_pos htc] at hsent
      cases hsent
      exact addPaddingToAudio_default sr audio
    · rw [if_neg htc] at hsent
      cases hsent
  · unfold earlyTranscriptionAudio
    exact addPaddingToAudio_default sr _

/-- Witness for C9: sample rate 2, no in-flight early transcription, a
one-sample utterance and a one-frame accumulation. -/
theorem transcription_padding_witness :
    ([0, 0, 5, 0, 0] : List ℚ) =
      List.replicate 2 0 ++ [5] ++ List.replicate 2 0 ∧
    earlyTranscriptionAudio 2 [[7]] =
      List.replicate 2 0 ++ (([[7]] : List (List ℤ)).flatten.map int16Norm) ++
        List.replicate 2 0 :=
  ⟨(transcription_padding 2 0 [5] [[7]]).1 [0, 0, 5, 0, 0] (by
      unfold transcribeSendAudio addPaddingToAudio
      norm_num [pyInt_natCast]
      decide),
   (transcription_padding 2 0 [5] [[7]]).2⟩

/-- A deque append is a take-last of the extended buffer. -/
theorem dequeAppend_takeLast (m : Nat) (buf : List Chunk) (d : Chunk) :
    dequeAppend m buf d = takeLast m (buf ++ [d]) := rfl

/-- Taking the last `m` of a take-last-`m` prefix extended on the right is
the same as taking the last `m` of the full extension. -/
theorem takeLast_takeLast_append (m : Nat) (a l : List α) :
    takeLast m (takeLast m a ++ l) = takeLast m (a ++ l) := by
  unfold takeLast
  rw [← List.drop_append_of_le_length (show a.length - m ≤ a.length by omega)]
  rw [List.drop_drop]
  congr 1
  simp only [List.length_drop, List.length_append]
  omega

/-- Folding deque appends over a chunk stream retains exactly the last
`m` chunks (provided the buffer starts within capacity). -/
theorem foldl_dequeAppend (m : Nat) :
    ∀ (l : List Chunk) (buf : List Chunk), buf.length ≤ m →
    l.foldl (dequeAppend m) buf = takeLast m (buf ++ l)
  | [], buf, h => by
      unfold takeLast
      rw [List.foldl_nil, List.append_nil, show buf.length - m = 0 by omega,
        List.drop_zero]
  | d :: rest, buf, h => by
      rw [List.foldl_cons]
      rw [foldl_dequeAppend m rest (dequeAppend m buf d) (by
        unfold dequeAppend
        simp only [List.length_drop, List.length_append, List.length_cons]
        omega)]
      rw [dequeAppend_takeLast, takeLast_takeLast_append]
      simp

/-- While no voice activity arrives, the armed, non-recording worker only
feeds the pre-roll deque. -/
theorem recordingWorkerRun_listen (m : Nat) :
    ∀ (pre : List Chunk) (buf fr : List Chunk),
    recordingWorkerRun m ⟨false, true, buf, fr⟩ (pre.map (fun c => (c, false))) =
      ⟨false, true, pre.foldl (dequeAppend m) buf, fr⟩
  | [], buf, fr => rfl
  | c :: rest, buf, fr => by
      rw [List.map_cons]
      show recordingWorkerRun m
        (recordingWorkerStep m ⟨false, true, buf, fr⟩ (c, false))
        (rest.map (fun c => (c, false))) = _
      rw [show recordingWorkerStep m ⟨false, true, buf, fr⟩ (c, false) =
          ⟨false, true, dequeAppend m buf c, fr⟩ by
        simp [recordingWorkerStep]]
      rw [recordingWorkerRun_listen m rest]
      rw [List.foldl_cons]

/-- While recording (no stop attempt, silence timer at zero) the worker
appends every chunk to the utterance frames. -/
theorem recordingWorkerRun_recording (m : Nat) :
    ∀ (post : List Chunk) (armed : Bool) (buf fr : List Chunk),
    recordingWorkerRun m ⟨true, armed, buf, fr⟩ (post.map (fun c => (c, true))) =
      ⟨true, armed, buf, fr ++ post⟩
  | [], armed, buf, fr => by simp [recordingWorkerRun]
  | c :: rest, armed, buf, fr => by
      rw [List.map_cons]
      show recordingWorkerRun m
        (recordingWorkerStep m ⟨true, armed, buf, fr⟩ (c, true))
        (rest.map (fun c => (c, true))) = _
      rw [show recordingWorkerStep m ⟨true, armed, buf, fr⟩ (c, true) =
          ⟨true, armed, buf, fr ++ [c]⟩ by simp [recordingWorkerStep]]
      rw [recordingWorkerRun_recording m rest]
      simp

/-- Claim C4 (amended): for a recording triggered by voice activity, the
pre-roll buffer's entire contents — exactly the last
`maxlen = int((sample_rate // buffer_size) * pre_recording_buffer_duration)`
chunks captured before the triggering chunk — are prepended, in capture
order, ahead of the triggering chunk and all chunks appended after the
start. (Because `maxlen` rounds whole chunks down through the integer
division, those chunks span only approximately, not exactly,
`pre_recording_buffer_duration` seconds.) -/
theorem preroll_seeding (m : Nat) (pre post : List Chunk) (trig : Chunk) :
    (recordingWorkerRun m listeningState
        (pre.map (fun c => (c, false)) ++
          (trig, true) :: post.map (fun c => (c, true)))).frames =
      takeLast m pre ++ trig :: post := by
  unfold recordingWorkerRun at *
  rw [List.foldl_append]
  rw [show listeningState = (⟨false, true, [], []⟩ : WorkerState) from rfl]
  rw [show List.foldl (recordingWorkerStep m) ⟨false, true, [], []⟩
        (pre.map (fun c => (c, false))) =
      (⟨false, true, pre.foldl (dequeAppend m) [], []⟩ : WorkerState) from
    recordingWorkerRun_listen m pre [] []]
  rw [List.foldl_cons]
  rw [show recordingWorkerStep m ⟨false, true, pre.foldl (dequeAppend m) [], []⟩
        (trig, true) =
      (⟨true, false, [], pre.foldl (dequeAppend m) [] ++ [trig]⟩ : WorkerState) by
    simp [recordingWorkerStep]]
  rw [show List.foldl (recordingWorkerStep m)
        ⟨true, false, [], pre.foldl (dequeAppend m) [] ++ [trig]⟩
        (post.map (fun c => (c, true))) =
      (⟨true, false, [], (pre.foldl (dequeAppend m) [] ++ [trig]) ++ post⟩ :
        WorkerState) from recordingWorkerRun_recording m post false _ _]
  rw [foldl_dequeAppend m pre [] (by simp)]
  simp [takeLast]

/-- Counterexample to claim C4 as stated, with `sample_rate = 10`,
`buffer_size = 3` and `pre_recording_buffer_duration = 1` s: the deque
holds `int((10 // 3) * 1) = 3` chunks (9 samples, not 10). After
listening through 4 chunks (1.2 s ≥ 1 s) the recording triggers on a
fifth chunk, and the assembled utterance's first `N * sample_rate = 10`
samples differ from the 10 samples immediately preceding the triggering
chunk. -/
theorem preroll_counterexample :
    audioBufferMaxlen 10 3 1 = 3 ∧
    (recordingWorkerRun (audioBufferMaxlen 10 3 1) listeningState
        (([[1,1,1],[2,2,2],[3,3,3],[4,4,4]] : List Chunk).map (fun c => (c, false)) ++
          (([5,5,5] : Chunk), true) :: [])).frames.flatten.take 10 ≠
      takeLast 10 (([[1,1,1],[2,2,2],[3,3,3],[4,4,4]] : List Chunk).flatten) := by
  have hm : audioBufferMaxlen 10 3 1 = 3 := by
    unfold audioBufferMaxlen pyInt
    norm_num
    decide
  refine ⟨hm, ?_⟩
  rw [hm]
  decide

/-- Python `int()` agrees with the floor on nonnegative values. -/
theorem pyInt_of_nonneg (q : ℚ) (h : 0 ≤ q) : pyInt q = ⌊q⌋ := if_pos h

/-- Python `int()` is the identity on integers. -/
theorem pyInt_intCast (z : ℤ) : pyInt (z : ℚ) = z := by
  unfold pyInt
  by_cases h : (0 : ℚ) ≤ (z : ℚ)
  · rw [if_pos h, Int.floor_intCast]
  · rw [if_neg h, Int.ceil_intCast]

/-- The float32 round trip of `wait_audio` is exact: normalizing an int16
sample, scaling back by `INT16_MAX_ABS_VALUE` and casting to int16
recovers the sample. -/
theorem float32_roundtrip (v : ℤ) (h1 : -32768 ≤ v) (h2 : v ≤ 32767) :
    float32ToInt16 (int16Norm v * INT16_MAX_ABS_VALUE) = v := by
  unfold float32ToInt16 int16Norm INT16_MAX_ABS_VALUE wrapInt16
  rw [div_mul_cancel₀ _ (by norm_num : (32768 : ℚ) ≠ 0)]
  rw [pyInt_intCast]
  have h3 : (v + 32768) % 65536 = v + 32768 :=
    Int.emod_eq_of_lt (by omega) (by omega)
  omega

/-- Re-chunking loses nothing: the chunks flatten back to the list. -/
theorem chunksOf_flatten (n : Nat) (hn : 0 < n) :
    ∀ l : List α, (chunksOf n l).flatten = l
  | [] => by simp [chunksOf]
  | x :: xs => by
      rw [chunksOf]
      rw [if_neg (by omega)]
      rw [List.flatten_cons]
      rw [chunksOf_flatten n hn ((x :: xs).drop n)]
      exact List.take_append_drop n (x :: xs)
termination_by l => l.length
decreasing_by
  simp only [List.length_drop, List.length_cons]
  omega

/-- Every chunk the re-chunking produces is nonempty and at most `n`
elements long. -/
theorem chunksOf_mem (n : Nat) (hn : 0 < n) :
    ∀ (l : List α), ∀ c ∈ chunksOf n l, c ≠ [] ∧ c.length ≤ n
  | [], c, hc => by simp [chunksOf] at hc
  | x :: xs, c, hc => by
      rw [chunksOf, if_neg (by omega)] at hc
      rcases List.mem_cons.mp hc with h | h
      · subst h
        constructor
        · cases n with
          | zero => omega
          | succ m => simp
        · rw [List.length_take]
          exact Nat.min_le_left _ _
      · exact chunksOf_mem n hn ((x :: xs).drop n) c h
termination_by l => l.length
decreasing_by
  simp only [List.length_drop, List.length_cons]
  omega

/-- The final-audio half of `wait_audio`: the assembled audio is the
normalized concatenation of the frames with
`min(int(sample_rate * backdate_stop_seconds), total_len)` trailing
samples removed. -/
theorem waitAudio_final_audio (sr : Nat) (frames : List (List ℤ)) (s r : ℚ)
    (hs : 0 ≤ s) :
    (waitAudioAssemble sr frames s r).1 =
      (frames.flatten.map int16Norm).take
        (frames.flatten.length -
          min (⌊(sr : ℚ) * s⌋).toNat frames.flatten.length) := by
  have hnn : (0 : ℚ) ≤ (sr : ℚ) * s := mul_nonneg (by positivity) hs
  have hfloor : (0 : ℤ) ≤ ⌊(sr : ℚ) * s⌋ := Int.floor_nonneg.mpr hnn
  have hpy : pyInt ((sr : ℚ) * s) = ⌊(sr : ℚ) * s⌋ := pyInt_of_nonneg _ hnn
  unfold waitAudioAssemble
  simp only [hpy, List.length_map]
  split_ifs with h0 h1
  · congr 1
    omega
  · rw [show frames.flatten.length -
        min (⌊(sr : ℚ) * s⌋).toNat frames.flatten.length = 0 by omega]
    rw [List.take_zero]
  · rw [show min (⌊(sr : ℚ) * s⌋).toNat frames.flatten.length = 0 by omega]
    rw [Nat.sub_zero]
    rw [List.take_of_length_le (le_of_eq (List.length_map _ _))]

/-- The re-seeding half of `wait_audio`: the frames carried into the next
utterance flatten to exactly the last
`min(int(sample_rate * backdate_resume_seconds), total_len)` samples of
the previous one, in chunks of at most 1024 samples (2048 bytes). -/
theorem waitAudio_seed_frames (sr : Nat) (frames : List (List ℤ)) (s r : ℚ)
    (hr : 0 ≤ r)
    (hrange : ∀ v ∈ frames.flatten, -32768 ≤ v ∧ v ≤ 32767) :
    ((waitAudioAssemble sr frames s r).2).flatten =
      frames.flatten.drop
        (frames.flatten.length -
          min (⌊(sr : ℚ) * r⌋).toNat frames.flatten.length) ∧
    ∀ c ∈ (waitAudioAssemble sr frames s r).2, c ≠ [] ∧ c.length ≤ 1024 := by
  have hnn : (0 : ℚ) ≤ (sr : ℚ) * r := mul_nonneg (by positivity) hr
  have hfloor : (0 : ℤ) ≤ ⌊(sr : ℚ) * r⌋ := Int.floor_nonneg.mpr hnn
  have hpy : pyInt ((sr : ℚ) * r) = ⌊(sr : ℚ) * r⌋ := pyInt_of_nonneg _ hnn
  have hmap : ∀ k : Nat,
      ((frames.flatten.map int16Norm).drop k).map
          (fun x => float32ToInt16 (x * INT16_MAX_ABS_VALUE)) =
        frames.flatten.drop k := by
    intro k
    rw [← List.map_drop]
    rw [List.map_map]
    refine (List.map_congr_left ?_).trans (List.map_id _)
    intro v hv
    have hvmem : v ∈ frames.flatten := List.mem_of_mem_drop hv
    exact float32_roundtrip v (hrange v hvmem).1 (hrange v hvmem).2
  unfold waitAudioAssemble
  simp only [hpy, List.length_map]
  split_ifs with h0
  · rw [hmap]
    constructor
    · rw [chunksOf_flatten (FRAME_SIZE_BYTES / 2) (by norm_num [FRAME_SIZE_BYTES])]
    · intro c hc
      have := chunksOf_mem (FRAME_SIZE_BYTES / 2)
        (by norm_num [FRAME_SIZE_BYTES]) _ c hc
      exact ⟨this.1, le_trans this.2 (by norm_num [FRAME_SIZE_BYTES])⟩
  · rw [show min (⌊(sr : ℚ) * r⌋).toNat frames.flatten.length = 0 by omega]
    rw [Nat.sub_zero]
    exact ⟨by simp, by simp⟩

/-- Claim C3 (amended): `stop(backdate_stop_seconds=s)` removes exactly
`min(int(s * sample_rate), L)` trailing samples from the assembled final
audio (truncation via Python `int()`, not `round()`), and
`backdate_resume_seconds=r` pre-seeds the next utterance with exactly
`min(int(r * sample_rate), L)` trailing samples of the previous one,
re-chunked into frames of at most `FRAME_SIZE = 2048` bytes
(1024 samples). -/
theorem backdate_applied (sr : Nat) (frames : List (List ℤ)) (s r : ℚ)
    (hs : 0 ≤ s) (hr : 0 ≤ r)
    (hrange : ∀ v ∈ frames.flatten, -32768 ≤ v ∧ v ≤ 32767) :
    (waitAudioAssemble sr frames s r).1 =
      (frames.flatten.map int16Norm).take
        (frames.flatten.length -
          min (⌊(sr : ℚ) * s⌋).toNat frames.flatten.length) ∧
    ((waitAudioAssemble sr frames s r).2).flatten =
      frames.flatten.drop
        (frames.flatten.length -
          min (⌊(sr : ℚ) * r⌋).toNat frames.flatten.length) ∧
    ∀ c ∈ (waitAudioAssemble sr frames s r).2, c ≠ [] ∧ c.length ≤ 1024 :=
  ⟨waitAudio_final_audio sr frames s r hs,
   (waitAudio_seed_frames sr frames s r hr hrange).1,
   (waitAudio_seed_frames sr frames s r hr hrange).2⟩

/-- Counterexample to claim C3 as stated: with `sample_rate = 16000` and
`backdate_stop_seconds = 13/80000` (so `s * sample_rate = 2.6`), Python
`round(2.6) = 3` but the code truncates with `int()` and removes only 2
samples: from a 4-sample utterance the final audio keeps 2 samples, not
the `4 - 3 = 1` the claim predicts. -/
theorem backdate_round_counterexample :
    pyRound ((16000 : ℚ) * (13/80000)) = 3 ∧
    (waitAudioAssemble 16000 [[1, 2, 3, 4]] (13/80000) 0).1.length = 2 ∧
    (2 : Nat) ≠ 4 - 3 := by
  have h26 : (16000 : ℚ) * (13/80000) = 13/5 := by norm_num
  have h26' : ((16000 : ℕ) : ℚ) * (13/80000) = 13/5 := by norm_num
  have hfl : ⌊(13/5 : ℚ)⌋ = 2 := by norm_num [Int.floor_eq_iff]
  refine ⟨?_, ?_, by decide⟩
  · unfold pyRound
    rw [h26, hfl]
    norm_num
  · unfold waitAudioAssemble
    rw [mul_zero]
    rw [show pyInt (0 : ℚ) = 0 by rw [pyInt_of_nonneg _ le_rfl, Int.floor_zero]]
    rw [h26']
    rw [pyInt_of_nonneg _ (by norm_num : (0 : ℚ) ≤ 13/5), hfl]
    norm_num
    decide

/-- Witness for C3 (amended): sample rate 2, a two-sample utterance,
`s = 0` and `r = 1`, so the whole utterance is re-seeded and nothing is
removed. -/
theorem backdate_applied_witness :
    (waitAudioAssemble 2 [[5, -3]] 0 1).1 =
      ((([[5, -3]] : List (List ℤ)).flatten.map int16Norm).take
        (([[5, -3]] : List (List ℤ)).flatten.length -
          min (⌊(2 : ℚ) * 0⌋).toNat
            ([[5, -3]] : List (List ℤ)).flatten.length)) ∧
    ((waitAudioAssemble 2 [[5, -3]] 0 1).2).flatten =
      ([[5, -3]] : List (List ℤ)).flatten.drop
        (([[5, -3]] : List (List ℤ)).flatten.length -
          min (⌊(2 : ℚ) * 1⌋).toNat
            ([[5, -3]] : List (List ℤ)).flatten.length) ∧
    ∀ c ∈ (waitAudioAssemble 2 [[5, -3]] 0 1).2, c ≠ [] ∧ c.length ≤ 1024 :=
  backdate_applied 2 [[5, -3]] 0 1 le_rfl (by norm_num) (by decide)

end Monobuck
